import Mathlib

/-!
Shallow embedding of the S25FL/S25FS SPI flash helper core (s25f.c) of the
flashrom project, together with theorems settling the specification claims.

External collaborators (the SPI transport, the timing primitive, the status
masks from spi.h and the chip-restore registry) are modelled as oracle
inputs: each external exchange's outcome is a parameter of the embedded
function, and the embedded function returns, besides the C return value,
a record of the externally visible actions it performed (writes, resets,
waits, polls, the registered restoration entry).
-/

namespace S25F

/-! ### Constants from s25f.c and the spec -/

/-- CR3NV register address (s25f.c line 64). -/
def CR3NV_ADDR : Nat := 0x000004

/-- Uniform-sector-layout bit of CR3NV: bit 3 (s25f.c line 65). -/
def CR3NV_20H_NV : Nat := 1 <<< 3

/-- Modelled from the spec: `SPI_SR_WIP` lives in spi.h, which is not under
src/; the spec fixes write-in-progress as bit 0 of the status register. -/
def SPI_SR_WIP : Nat := 1 <<< 0

/-- Modelled from the spec: `SPI_SR_ERA_ERR` lives in spi.h, which is not
under src/; the spec names a dedicated erase-error status bit (distinct from
WIP bit 0 and the program-error bit 6), bit 5 in the chip family layout. -/
def SPI_SR_ERA_ERR : Nat := 1 <<< 5

/-- Program-error status bit, written literally as `(1 << 6)` in
s25f_poll_status (s25f.c line 159). -/
def SPI_SR_PGM_ERR : Nat := 1 <<< 6

/-- Sleep interval of the status polling loop in microseconds:
`programmer_delay(1000 * 10)` (s25f.c line 165). -/
def POLL_SLEEP_US : Nat := 1000 * 10

/-- Sector erase wait `S25FS_T_SE` in microseconds (s25f.c line 70). -/
def S25FS_T_SE : Nat := 145 * 1000

/-! ### Status Poller (s25f_poll_status, s25f.c lines 141-170)

The successive results of `spi_read_status_register` are supplied as a list
of byte samples.  The poller returns `none` when the supplied trace is
exhausted while the device still looks busy (the C loop would keep
polling); otherwise it returns the C return value together with counts of
the externally visible actions. -/

/-- Externally visible outcome of one run of the status poller. -/
structure PollOutcome where
  result : Int
  reads : Nat
  sleeps : Nat
  legacyResets : Nat
  deriving Repr, DecidableEq

/-- The checks the loop body performs on the current sample `tmp`:
WIP clear exits cleanly, an erase or program error triggers one legacy
reset and the fault return -1; `none` means the loop must sleep and
resample (s25f.c lines 145-166). -/
def pollCheck (tmp : Nat) : Option PollOutcome :=
  if tmp &&& SPI_SR_WIP = 0 then
    some { result := 0, reads := 1, sleeps := 0, legacyResets := 0 }
  else if tmp &&& SPI_SR_ERA_ERR ≠ 0 then
    some { result := -1, reads := 1, sleeps := 0, legacyResets := 1 }
  else if tmp &&& SPI_SR_PGM_ERR ≠ 0 then
    some { result := -1, reads := 1, sleeps := 0, legacyResets := 1 }
  else none

/-- The polling loop, entered with the freshly read sample `tmp`; `rest`
holds the status bytes any further reads would return.  `none` when the
supplied trace runs out while the device still looks busy. -/
def pollLoop (tmp : Nat) : List Nat → Option PollOutcome
  | [] => pollCheck tmp
  | t :: r =>
    match pollCheck tmp with
    | some o => some o
    | none =>
      (pollLoop t r).map fun o =>
        { o with reads := o.reads + 1, sleeps := o.sleeps + 1 }

/-- s25f_poll_status: the first element of `trace` is the initial
`spi_read_status_register` result. -/
def s25f_poll_status : List Nat → Option PollOutcome
  | [] => none
  | t :: rest => pollLoop t rest

/-! ### Register Access Component (s25f.c lines 172-236)

`s25fs_read_cr` issues one RDAR exchange whose outcome is supplied as
`none` (transport failure) or `some b` (response byte `b`).  The C function
returns the `int` -1 on failure and the `uint8_t` response byte otherwise
(s25f.c lines 188-195). -/

/-- Result of s25fs_read_cr for a given transport outcome. -/
def s25fs_read_cr (t : Option Nat) : Int :=
  match t with
  | none => -1
  | some b => (b % 256 : Nat)

/-- Truncation of an `int` into a C `unsigned char`, as happens when
`s25fs_read_cr`'s result is assigned to `unsigned char cfg`
(s25f.c lines 251, 281). -/
def truncU8 (r : Int) : Nat := (r % 256).toNat

/-- s25fs_write_cr: `cmdResult` is the outcome of the WREN+WRAR
multicommand chain; on success the code waits T_W and runs the status
poller, whose samples are `status`.  Returns `none` only when the poll
trace is exhausted while busy. -/
def s25fs_write_cr (cmdResult : Int) (status : List Nat) : Option Int :=
  if cmdResult ≠ 0 then some (-1)
  else (s25f_poll_status status).map (·.result)

/-- The 5-byte WRAR frame built by s25fs_write_cr (s25f.c lines 210-217). -/
def wrar_frame (addr data : Nat) : List Nat :=
  [0x71, (addr >>> 16) &&& 0xff, (addr >>> 8) &&& 0xff, addr &&& 0xff, data]

/-- s25fs_software_reset returns the multicommand result when nonzero,
otherwise waits 2*T_RPH and returns 0 (s25f.c lines 107-139). -/
def s25fs_software_reset (cmdResult : Int) : Int :=
  if cmdResult ≠ 0 then cmdResult else 0

/-! ### Session Restoration (s25fs_restore_cr3nv, s25f.c lines 238-246) -/

/-- Externally visible outcome of the restoration action: the C return
value (`none` when the inner poll trace is exhausted) and the data byte of
the WRAR frame it issued against CR3NV. -/
structure RestoreOutcome where
  ret : Option Int
  wroteData : Nat
  deriving Repr, DecidableEq

/-- s25fs_restore_cr3nv: `ret |= s25fs_write_cr(flash, CR3NV_ADDR, cfg);`
`ret |= s25fs_software_reset(flash);`.  The two results are combined with
C bitwise OR on `int`; the captured `cfg` is passed unchanged as the WRAR
data byte (s25f.c line 243). -/
def s25fs_restore_cr3nv (cfg : Nat) (writeCmd : Int) (writeStatus : List Nat)
    (resetCmd : Int) : RestoreOutcome :=
  { ret := (s25fs_write_cr writeCmd writeStatus).map fun w =>
      Int.lor w (s25fs_software_reset resetCmd),
    wroteData := (wrar_frame CR3NV_ADDR cfg).getD 4 0 }

/-- Modelled from the spec: the device itself is an external collaborator
(the Command Transport Adapter serializes frames to it).  Per §4.4/§6, a
successful addressed register write of data byte `d` followed by the reset
leaves the register holding `d` (masked to its 8 bits). -/
def cr3nvAfterWrite (d : Nat) : Nat := d % 256

/-! ### Block Erase Operation (s25fs_block_erase_d8, s25f.c lines 248-312)

The oracle environment supplies, in program order, the outcomes of every
external exchange the function can perform:
the first RDAR read, the conversion WREN+WRAR chain and the status samples
its internal poll would see, the forced-reset chain, the verification RDAR
read, the extra RDAR read performed inside the debug message
(s25f.c line 295), the WREN+D8-erase chain, and the status samples of the
final poll. -/

/-- Oracle outcomes for one call of s25fs_block_erase_d8. -/
structure EraseEnv where
  read1 : Option Nat
  writeCmd : Int
  writeStatus : List Nat
  resetCmd : Int
  read2 : Option Nat
  read3 : Option Nat
  eraseCmd : Int
  eraseStatus : List Nat
  deriving Repr, DecidableEq

/-- Externally visible outcome of one call of s25fs_block_erase_d8.
`ret = none` means the final poll ran out of supplied samples. -/
structure EraseOutcome where
  ret : Option Int
  checked : Bool
  archCheckRun : Bool
  crWrites : Nat
  forcedResets : Nat
  restoreEntry : Option Nat
  eraseIssued : Bool
  seWaited : Bool
  pollInvoked : Bool
  deriving Repr, DecidableEq

/-- Tail of s25fs_block_erase_d8 from line 303 on: issue the erase chain;
on transport failure return it at once, else wait S25FS_T_SE and poll. -/
def eraseTail (checked archRun : Bool) (writes resets : Nat)
    (entry : Option Nat) (env : EraseEnv) : EraseOutcome :=
  if env.eraseCmd ≠ 0 then
    { ret := some env.eraseCmd, checked := checked, archCheckRun := archRun,
      crWrites := writes, forcedResets := resets, restoreEntry := entry,
      eraseIssued := true, seWaited := false, pollInvoked := false }
  else
    { ret := (s25f_poll_status env.eraseStatus).map (·.result),
      checked := checked, archCheckRun := archRun,
      crWrites := writes, forcedResets := resets, restoreEntry := entry,
      eraseIssued := true, seWaited := true, pollInvoked := true }

/-- s25fs_block_erase_d8, with the per-session static `cr3nv_checked`
passed and returned explicitly.  Note that in the conversion branch the
results of the WRAR write and the forced reset are discarded by the C code,
that the verification re-read overwrites `cfg` before
`register_chip_restore` captures it (s25f.c lines 286, 297), and that on a
failed verification the function returns 1 before `cr3nv_checked = 1`
(s25f.c lines 290, 300). -/
def s25fs_block_erase_d8 (cr3nv_checked : Bool) (env : EraseEnv) : EraseOutcome :=
  if !cr3nv_checked then
    let cfg := truncU8 (s25fs_read_cr env.read1)
    if cfg &&& CR3NV_20H_NV = 0 then
      let cfg2 := truncU8 (s25fs_read_cr env.read2)
      if cfg2 &&& CR3NV_20H_NV = 0 then
        { ret := some 1, checked := false, archCheckRun := true,
          crWrites := 1, forcedResets := 1, restoreEntry := none,
          eraseIssued := false, seWaited := false, pollInvoked := false }
      else
        eraseTail true true 1 1 (some cfg2) env
    else
      eraseTail true true 0 0 none env
  else
    eraseTail true false 0 0 none env

/-- Initial value of the per-session flag: `static int cr3nv_checked = 0;`
(s25f.c line 253).  A C static is zero-initialized when the process - one
flashing session - starts. -/
def sessionStartChecked : Bool := false

/-! ### Device Identifier (probe_spi_big_spansion, s25f.c lines 315-366) -/

/-- The read-only part of the chip descriptor used by the probe. -/
structure FlashChip where
  manufacture_id : Nat
  model_id : Nat
  deriving Repr, DecidableEq

/-- Big-endian assembly of 4 bytes, the net effect of filling
`model_id.array` and applying `be_to_cpu32` (s25f.c lines 359-361). -/
def be32 (a b c d : Nat) : Nat :=
  (a % 256) * 2 ^ 24 + (b % 256) * 2 ^ 16 + (c % 256) * 2 ^ 8 + d % 256

/-- probe_spi_big_spansion: `ret` is the RDID transport result,
`d0 .. d5` the six response bytes.  Returns 1 ("identified") or 0. -/
def probe_spi_big_spansion (chip : FlashChip) (ret : Int)
    (d0 d1 d2 _d3 d4 d5 : Nat) : Nat :=
  if ret = 0 then
    if d0 = chip.manufacture_id then
      if be32 d1 d2 d4 d5 = chip.model_id then 1 else 0
    else 0
  else 0

/-! ### Helper lemmas -/

/-- A successfully read register byte survives the `unsigned char`
truncation unchanged (modulo 256). -/
theorem truncU8_read_some (b : Nat) :
    truncU8 (s25fs_read_cr (some b)) = b % 256 := by
  simp only [s25fs_read_cr, truncU8]
  omega

/-- A failed register read's -1 truncates to 0xFF. -/
theorem truncU8_read_none : truncU8 (s25fs_read_cr none) = 255 := by
  decide

/-- The architecture-check indicator of the erase tail is the value passed
through. -/
theorem eraseTail_archCheckRun (c r : Bool) (w rs : Nat) (e : Option Nat)
    (env : EraseEnv) : (eraseTail c r w rs e env).archCheckRun = r := by
  unfold eraseTail
  split <;> rfl

/-- The erase tail always issues the erase chain and carries the
configuration-phase fields through unchanged. -/
theorem eraseTail_fields (c r : Bool) (w rs : Nat) (e : Option Nat)
    (env : EraseEnv) :
    (eraseTail c r w rs e env).eraseIssued = true ∧
    (eraseTail c r w rs e env).checked = c ∧
    (eraseTail c r w rs e env).crWrites = w ∧
    (eraseTail c r w rs e env).forcedResets = rs ∧
    (eraseTail c r w rs e env).restoreEntry = e := by
  unfold eraseTail
  split <;> exact ⟨rfl, rfl, rfl, rfl, rfl⟩

/-! ### Claim theorems -/

/-- Claim C2: the Device Identifier returns 1 ("identified") exactly when
the transport read succeeds, response byte 0 equals the expected
manufacturer id, and the big-endian word assembled from response bytes
1, 2, 4, 5 equals the descriptor's model id; any transport failure or
mismatch yields 0. -/
theorem probe_identified_iff (chip : FlashChip) (ret : Int)
    (d0 d1 d2 d3 d4 d5 : Nat) :
    probe_spi_big_spansion chip ret d0 d1 d2 d3 d4 d5 = 1 ↔
      ret = 0 ∧ d0 = chip.manufacture_id ∧ be32 d1 d2 d4 d5 = chip.model_id := by
  unfold probe_spi_big_spansion
  split_ifs <;> simp_all

/-- Claim C3: a sample with WIP set together with the erase-error bit or
the program-error bit makes the Status Poller issue exactly one legacy
reset and return the fault result -1, with no sleep and no further status
reads, whatever samples would have followed. -/
theorem poll_error_immediate_reset (s : Nat) (rest : List Nat)
    (hwip : s &&& SPI_SR_WIP ≠ 0)
    (herr : s &&& SPI_SR_ERA_ERR ≠ 0 ∨ s &&& SPI_SR_PGM_ERR ≠ 0) :
    s25f_poll_status (s :: rest) =
      some { result := -1, reads := 1, sleeps := 0, legacyResets := 1 } := by
  have hchk : pollCheck s =
      some { result := -1, reads := 1, sleeps := 0, legacyResets := 1 } := by
    unfold pollCheck
    split_ifs with h1 h2 h3
    · exact absurd h1 hwip
    · rfl
    · rfl
    · rcases herr with h | h
      · exact absurd h h2
      · exact absurd h h3
  cases rest with
  | nil => simpa [s25f_poll_status, pollLoop] using hchk
  | cons t r => simp [s25f_poll_status, pollLoop, hchk]

/-- Witness for C3 at the sample 0x21 (WIP and erase-error set). -/
theorem poll_error_immediate_reset_witness :
    s25f_poll_status [0x21] =
      some { result := -1, reads := 1, sleeps := 0, legacyResets := 1 } :=
  poll_error_immediate_reset 0x21 [] (by decide) (Or.inl (by decide))

/-- Claim C4: for samples [WIP set, no error bits], [WIP set, no error
bits], [WIP clear] the Status Poller returns the clean result 0 after
exactly two sleep intervals (of 10 ms each) and exactly three status
reads, with no reset. -/
theorem poll_three_samples_clean (s1 s2 s3 : Nat)
    (h1w : s1 &&& SPI_SR_WIP ≠ 0) (h1e : s1 &&& SPI_SR_ERA_ERR = 0)
    (h1p : s1 &&& SPI_SR_PGM_ERR = 0)
    (h2w : s2 &&& SPI_SR_WIP ≠ 0) (h2e : s2 &&& SPI_SR_ERA_ERR = 0)
    (h2p : s2 &&& SPI_SR_PGM_ERR = 0)
    (h3w : s3 &&& SPI_SR_WIP = 0) :
    s25f_poll_status [s1, s2, s3] =
      some { result := 0, reads := 3, sleeps := 2, legacyResets := 0 } ∧
    POLL_SLEEP_US = 10 * 1000 := by
  refine ⟨?_, rfl⟩
  have c1 : pollCheck s1 = none := by simp [pollCheck, h1w, h1e, h1p]
  have c2 : pollCheck s2 = none := by simp [pollCheck, h2w, h2e, h2p]
  have c3 : pollCheck s3 =
      some { result := 0, reads := 1, sleeps := 0, legacyResets := 0 } := by
    simp [pollCheck, h3w]
  simp [s25f_poll_status, pollLoop, c1, c2, c3]

/-- Witness for C4 at the sample sequence [0x01, 0x01, 0x00]. -/
theorem poll_three_samples_clean_witness :
    s25f_poll_status [1, 1, 0] =
      some { result := 0, reads := 3, sleeps := 2, legacyResets := 0 } ∧
    POLL_SLEEP_US = 10 * 1000 :=
  poll_three_samples_clean 1 1 0 (by decide) (by decide) (by decide)
    (by decide) (by decide) (by decide) (by decide)

/-- Claim C5: when the first read of CR3NV in a session returns a byte with
the uniform-layout bit already set, the operation issues no register write
and no forced reset, registers no restoration entry, marks the session
checked, and issues the erase chain. -/
theorem erase_fast_path_no_side_effects (v : Nat) (env : EraseEnv)
    (hv : v < 256) (h8 : v &&& CR3NV_20H_NV ≠ 0) (hr : env.read1 = some v) :
    (s25fs_block_erase_d8 false env).crWrites = 0 ∧
    (s25fs_block_erase_d8 false env).forcedResets = 0 ∧
    (s25fs_block_erase_d8 false env).restoreEntry = none ∧
    (s25fs_block_erase_d8 false env).checked = true ∧
    (s25fs_block_erase_d8 false env).archCheckRun = true ∧
    (s25fs_block_erase_d8 false env).eraseIssued = true := by
  have hb : truncU8 (s25fs_read_cr env.read1) = v := by
    rw [hr, truncU8_read_some, Nat.mod_eq_of_lt hv]
  unfold s25fs_block_erase_d8
  rw [hb, if_neg h8]
  simp only [Bool.not_false, if_true]
  obtain ⟨hi, hc, hw, hrs, he⟩ := eraseTail_fields true true 0 0 none env
  exact ⟨hw, hrs, he, hc, eraseTail_archCheckRun true true 0 0 none env, hi⟩

/-- Witness for C5 at register value 0x08. -/
theorem erase_fast_path_no_side_effects_witness :
    (s25fs_block_erase_d8 false
        ⟨some 8, 0, [0], 0, some 8, some 8, 0, [0]⟩).crWrites = 0 ∧
    (s25fs_block_erase_d8 false
        ⟨some 8, 0, [0], 0, some 8, some 8, 0, [0]⟩).forcedResets = 0 ∧
    (s25fs_block_erase_d8 false
        ⟨some 8, 0, [0], 0, some 8, some 8, 0, [0]⟩).restoreEntry = none ∧
    (s25fs_block_erase_d8 false
        ⟨some 8, 0, [0], 0, some 8, some 8, 0, [0]⟩).checked = true ∧
    (s25fs_block_erase_d8 false
        ⟨some 8, 0, [0], 0, some 8, some 8, 0, [0]⟩).archCheckRun = true ∧
    (s25fs_block_erase_d8 false
        ⟨some 8, 0, [0], 0, some 8, some 8, 0, [0]⟩).eraseIssued = true :=
  erase_fast_path_no_side_effects 8 ⟨some 8, 0, [0], 0, some 8, some 8, 0, [0]⟩
    (by decide) (by decide) rfl

/-- Claim C6: whenever the erase chain is actually issued and its
multicommand exchange fails, the operation returns that failure at once:
the sector-erase wait does not elapse and the final status poll never
runs. -/
theorem erase_transport_failure_immediate (checked : Bool) (env : EraseEnv)
    (hc : env.eraseCmd ≠ 0)
    (hi : (s25fs_block_erase_d8 checked env).eraseIssued = true) :
    (s25fs_block_erase_d8 checked env).ret = some env.eraseCmd ∧
    (s25fs_block_erase_d8 checked env).seWaited = false ∧
    (s25fs_block_erase_d8 checked env).pollInvoked = false := by
  simp only [s25fs_block_erase_d8] at hi ⊢
  split_ifs at hi ⊢ <;>
    (unfold eraseTail; rw [if_pos hc]; exact ⟨rfl, rfl, rfl⟩)

/-- Witness for C6: erase chain failing with code 5 on a checked session. -/
theorem erase_transport_failure_immediate_witness :
    (s25fs_block_erase_d8 true
        ⟨some 8, 0, [0], 0, some 8, some 8, 5, [0]⟩).ret = some 5 ∧
    (s25fs_block_erase_d8 true
        ⟨some 8, 0, [0], 0, some 8, some 8, 5, [0]⟩).seWaited = false ∧
    (s25fs_block_erase_d8 true
        ⟨some 8, 0, [0], 0, some 8, some 8, 5, [0]⟩).pollInvoked = false :=
  erase_transport_failure_immediate true
    ⟨some 8, 0, [0], 0, some 8, some 8, 5, [0]⟩ (by decide) (by decide)

/-- Claim C7: when the verification re-read after the conversion write and
forced reset still has the uniform bit clear, the operation returns the
fatal error 1 and never issues the erase chain. -/
theorem erase_verify_fail_fatal (a b : Nat) (env : EraseEnv)
    (ha : a < 256) (hb : b < 256) (h1 : env.read1 = some a)
    (ha8 : a &&& CR3NV_20H_NV = 0) (h2 : env.read2 = some b)
    (hb8 : b &&& CR3NV_20H_NV = 0) :
    (s25fs_block_erase_d8 false env).ret = some 1 ∧
    (s25fs_block_erase_d8 false env).eraseIssued = false := by
  have t1 : truncU8 (s25fs_read_cr env.read1) = a := by
    rw [h1, truncU8_read_some, Nat.mod_eq_of_lt ha]
  have t2 : truncU8 (s25fs_read_cr env.read2) = b := by
    rw [h2, truncU8_read_some, Nat.mod_eq_of_lt hb]
  simp [s25fs_block_erase_d8, t1, t2, ha8, hb8]

/-- Witness for C7: both reads return 0x00, the bit never sets. -/
theorem erase_verify_fail_fatal_witness :
    (s25fs_block_erase_d8 false
        ⟨some 0, 0, [0], 0, some 0, some 0, 0, [0]⟩).ret = some 1 ∧
    (s25fs_block_erase_d8 false
        ⟨some 0, 0, [0], 0, some 0, some 0, 0, [0]⟩).eraseIssued = false :=
  erase_verify_fail_fatal 0 0 ⟨some 0, 0, [0], 0, some 0, some 0, 0, [0]⟩
    (by decide) (by decide) rfl (by decide) rfl (by decide)

/-- Claim C8: the per-session checked flag starts false (the zero
initialization of the C static at process birth, one process being one
flashing session), so for every pair of independent sessions the first
Block Erase call of each performs the architecture check anew. -/
theorem session_flag_fresh_each_session (e1 e2 : EraseEnv) :
    sessionStartChecked = false ∧
    (s25fs_block_erase_d8 sessionStartChecked e1).archCheckRun = true ∧
    (s25fs_block_erase_d8 sessionStartChecked e2).archCheckRun = true := by
  refine ⟨rfl, ?_, ?_⟩ <;>
    · simp only [sessionStartChecked, s25fs_block_erase_d8]
      split_ifs <;> simp_all [eraseTail_archCheckRun]

/-- Claim C9: a failed first read of CR3NV yields -1, truncated to 0xFF,
whose bit 3 is set; the configurator therefore performs no write, reset or
restoration registration, marks the session checked, issues the erase, and
the return value is the same as if the architecture had already been
checked - the read failure is not surfaced. -/
theorem read_failure_treated_as_uniform (env : EraseEnv)
    (h : env.read1 = none) :
    truncU8 (s25fs_read_cr none) = 255 ∧
    255 &&& CR3NV_20H_NV ≠ 0 ∧
    (s25fs_block_erase_d8 false env).crWrites = 0 ∧
    (s25fs_block_erase_d8 false env).forcedResets = 0 ∧
    (s25fs_block_erase_d8 false env).restoreEntry = none ∧
    (s25fs_block_erase_d8 false env).checked = true ∧
    (s25fs_block_erase_d8 false env).eraseIssued = true ∧
    (s25fs_block_erase_d8 false env).ret = (s25fs_block_erase_d8 true env).ret := by
  have h255 : ¬(255 &&& CR3NV_20H_NV = 0) := by decide
  have hred : s25fs_block_erase_d8 false env = eraseTail true true 0 0 none env := by
    simp [s25fs_block_erase_d8, h, truncU8_read_none, h255]
  have hred2 : s25fs_block_erase_d8 true env = eraseTail true false 0 0 none env := rfl
  obtain ⟨hi, hc, hw, hrs, he⟩ := eraseTail_fields true true 0 0 none env
  refine ⟨truncU8_read_none, h255, ?_, ?_, ?_, ?_, ?_, ?_⟩ <;>
    rw [hred] <;> try rw [hred2]
  · exact hw
  · exact hrs
  · exact he
  · exact hc
  · exact hi
  · unfold eraseTail
    split <;> rfl

/-- Witness for C9: the first read fails, the erase runs and returns 0. -/
theorem read_failure_treated_as_uniform_witness :
    truncU8 (s25fs_read_cr none) = 255 ∧
    255 &&& CR3NV_20H_NV ≠ 0 ∧
    (s25fs_block_erase_d8 false
        ⟨none, 0, [0], 0, some 0, some 0, 0, [0]⟩).crWrites = 0 ∧
    (s25fs_block_erase_d8 false
        ⟨none, 0, [0], 0, some 0, some 0, 0, [0]⟩).forcedResets = 0 ∧
    (s25fs_block_erase_d8 false
        ⟨none, 0, [0], 0, some 0, some 0, 0, [0]⟩).restoreEntry = none ∧
    (s25fs_block_erase_d8 false
        ⟨none, 0, [0], 0, some 0, some 0, 0, [0]⟩).checked = true ∧
    (s25fs_block_erase_d8 false
        ⟨none, 0, [0], 0, some 0, some 0, 0, [0]⟩).eraseIssued = true ∧
    (s25fs_block_erase_d8 false
        ⟨none, 0, [0], 0, some 0, some 0, 0, [0]⟩).ret =
      (s25fs_block_erase_d8 true
        ⟨none, 0, [0], 0, some 0, some 0, 0, [0]⟩).ret :=
  read_failure_treated_as_uniform ⟨none, 0, [0], 0, some 0, some 0, 0, [0]⟩ rfl

/-- Claim C10: a failed verification leaves the session flag false and
returns 1, so the next Block Erase call of the same session runs the whole
conversion again (architecture check, write and forced reset anew). -/
theorem verify_fail_flag_stays_unchecked (a b c : Nat) (env env2 : EraseEnv)
    (ha : a < 256) (hb : b < 256) (hc : c < 256)
    (h1 : env.read1 = some a) (ha8 : a &&& CR3NV_20H_NV = 0)
    (h2 : env.read2 = some b) (hb8 : b &&& CR3NV_20H_NV = 0)
    (h1' : env2.read1 = some c) (hc8 : c &&& CR3NV_20H_NV = 0) :
    (s25fs_block_erase_d8 false env).ret = some 1 ∧
    (s25fs_block_erase_d8 false env).checked = false ∧
    (s25fs_block_erase_d8 (s25fs_block_erase_d8 false env).checked env2).archCheckRun = true ∧
    (s25fs_block_erase_d8 (s25fs_block_erase_d8 false env).checked env2).crWrites = 1 ∧
    (s25fs_block_erase_d8 (s25fs_block_erase_d8 false env).checked env2).forcedResets = 1 := by
  have t1 : truncU8 (s25fs_read_cr env.read1) = a := by
    rw [h1, truncU8_read_some, Nat.mod_eq_of_lt ha]
  have t2 : truncU8 (s25fs_read_cr env.read2) = b := by
    rw [h2, truncU8_read_some, Nat.mod_eq_of_lt hb]
  have t3 : truncU8 (s25fs_read_cr env2.read1) = c := by
    rw [h1', truncU8_read_some, Nat.mod_eq_of_lt hc]
  have e1 : (s25fs_block_erase_d8 false env).ret = some 1 ∧
      (s25fs_block_erase_d8 false env).checked = false := by
    simp [s25fs_block_erase_d8, t1, t2, ha8, hb8]
  refine ⟨e1.1, e1.2, ?_, ?_, ?_⟩ <;> rw [e1.2] <;>
    · simp only [s25fs_block_erase_d8, t3, hc8, Bool.not_false, if_true]
      split_ifs <;> simp_all [eraseTail_archCheckRun, eraseTail_fields]

/-- Witness for C10: both calls see register reads of 0x00. -/
theorem verify_fail_flag_stays_unchecked_witness :
    (s25fs_block_erase_d8 false
        ⟨some 0, 0, [0], 0, some 0, some 0, 0, [0]⟩).ret = some 1 ∧
    (s25fs_block_erase_d8 false
        ⟨some 0, 0, [0], 0, some 0, some 0, 0, [0]⟩).checked = false ∧
    (s25fs_block_erase_d8
        (s25fs_block_erase_d8 false
          ⟨some 0, 0, [0], 0, some 0, some 0, 0, [0]⟩).checked
        ⟨some 0, 0, [0], 0, some 0, some 0, 0, [0]⟩).archCheckRun = true ∧
    (s25fs_block_erase_d8
        (s25fs_block_erase_d8 false
          ⟨some 0, 0, [0], 0, some 0, some 0, 0, [0]⟩).checked
        ⟨some 0, 0, [0], 0, some 0, some 0, 0, [0]⟩).crWrites = 1 ∧
    (s25fs_block_erase_d8
        (s25fs_block_erase_d8 false
          ⟨some 0, 0, [0], 0, some 0, some 0, 0, [0]⟩).checked
        ⟨some 0, 0, [0], 0, some 0, some 0, 0, [0]⟩).forcedResets = 1 :=
  verify_fail_flag_stays_unchecked 0 0 0
    ⟨some 0, 0, [0], 0, some 0, some 0, 0, [0]⟩
    ⟨some 0, 0, [0], 0, some 0, some 0, 0, [0]⟩
    (by decide) (by decide) (by decide) rfl (by decide) rfl (by decide)
    rfl (by decide)

/-- Claim C1 is false of the code: with original CR3NV value 0x00 and an
honest device (the post-conversion re-read returns 0x08), the conversion
during the first Block Erase registers the restoration entry 0x08 - the
re-read value that overwrote `cfg` before `register_chip_restore` - not the
original 0x00; running the registered restoration action therefore writes
0x08, leaving the register at 0x08, not at the original 0x00. -/
theorem restore_entry_not_original :
    (s25fs_block_erase_d8 false
        ⟨some 0, 0, [0], 0, some 8, some 8, 0, [0]⟩).restoreEntry = some 8 ∧
    (s25fs_restore_cr3nv 8 0 [0] 0).ret = some 0 ∧
    cr3nvAfterWrite (s25fs_restore_cr3nv 8 0 [0] 0).wroteData = 8 ∧
    (8 : Nat) ≠ 0 := by
  decide

end S25F
